import Mathlib

/-!
Verification development for the sensor input acquisition, debounce and
scheduling engine of CommandStation-EX (`Sensors.cpp`, `Sensor` class).

The C++ code keeps a singly linked list of `Sensor` records with a roaming
scan cursor (`readingSensor`), a cycle-start timestamp (`lastReadCycle`),
and per-sensor debounce state (`active`, `inputState`, `latchDelay`).
We embed this shallowly:

* the linked list becomes a `List Sensor`;
* the cursor pointer becomes an `Option Nat` index into that list
  (a pointer to the k-th node is the index k; `NULL` is `none`);
* the class-static constants `minReadCount` (debounce threshold) and
  `cycleInterval` (minimum microseconds between cycle starts), which live
  in the header `Sensors.h`, are passed as explicit parameters `mrc` and
  `cyc`;
* `micros()` and `IODevice::read` become explicit inputs (`thisTime`,
  `readFn`), `CommandDistributor::broadcastSensor` becomes an output list
  of `(snum, active)` events, and `calloc` success becomes the `allocOk`
  input of `create`;
* `unsigned long` timestamp subtraction is 32-bit modular (`usub32`);
* the EEPROM region written by `store` / read by `load` becomes a
  `List SensorData` of records plus the `nSensors` header count.
-/

namespace Sensors

/-- Modelled from the spec: largest valid pin identifier (`VPIN_MAX` from the
`IODevice.h` header, which is not part of the analysed sources; the spec only
requires that pins above the maximum, other than the sentinel, are rejected). -/
def VPIN_MAX : Nat := 32767

/-- Modelled from the spec: the "none" sentinel pin (`VPIN_NONE`), meaning the
sensor has no physical input and its state arrives by software injection. -/
def VPIN_NONE : Nat := 65535

/-- Persisted subset of a sensor: `struct SensorData { snum; pin; pullUp }`. -/
structure SensorData where
  snum : Int
  pin : Nat
  pullUp : Int
  deriving Repr, DecidableEq

/-- One sensor record: persisted `data` plus the runtime debounce fields
`active` (committed state), `inputState` (raw sample), `latchDelay`
(debounce countdown) and `pollingRequired`. -/
structure Sensor where
  data : SensorData
  active : Bool
  inputState : Bool
  latchDelay : Nat
  pollingRequired : Bool
  deriving Repr, DecidableEq

/-- Global registry state: the sensor list (`firstSensor` is the list head),
the scan cursor `readingSensor` as an index (the C pointer to the k-th node),
and the cycle-start timestamp `lastReadCycle`. -/
structure SensorState where
  sensors : List Sensor
  readingSensor : Option Nat
  lastReadCycle : Nat
  deriving Repr, DecidableEq

/-- Initial static state: `firstSensor = NULL`, `readingSensor = NULL`,
`lastReadCycle = 0`. -/
def emptyState : SensorState :=
  { sensors := [], readingSensor := none, lastReadCycle := 0 }

/-- Unsigned 32-bit subtraction `a - b`, as computed on `unsigned long`
timestamps in `checkAll`. -/
def usub32 (a b : Nat) : Nat :=
  (a % 2 ^ 32 + 2 ^ 32 - b % 2 ^ 32) % 2 ^ 32

/-- Debounce step applied to one scanned sensor (`Sensor::checkAll`, the
`inputState == active` / `latchDelay > 0` / commit cascade).  Returns the
updated sensor and the broadcast event, if any: on commit the code calls
`CommandDistributor::broadcastSensor(data.snum, active)` with the freshly
assigned `active = inputState`. -/
def debounceStep (mrc : Nat) (s : Sensor) : Sensor × Option (Int × Bool) :=
  if s.inputState = s.active then
    ({ s with latchDelay := mrc }, none)
  else if 0 < s.latchDelay then
    ({ s with latchDelay := s.latchDelay - 1 }, none)
  else
    ({ s with active := s.inputState, latchDelay := mrc },
      some (s.data.snum, s.inputState))

/-- One scan tick of a single sensor that observes raw sample `raw` this
tick: the sample is stored in `inputState` (as the poll or notification
path does) and the debounce step runs. -/
def tickRaw (mrc : Nat) (raw : Bool) (s : Sensor) : Sensor × Option (Int × Bool) :=
  debounceStep mrc { s with inputState := raw }

/-- Feed a sequence of raw samples to one sensor, one scan tick per sample,
collecting the broadcast events in order. -/
def runTicks (mrc : Nat) : List Bool → Sensor → Sensor × List (Int × Bool)
  | [], s => (s, [])
  | raw :: rest, s =>
    let t := tickRaw mrc raw s
    let r := runTicks mrc rest t.1
    (r.1, t.2.toList ++ r.2)

/-- Per-sensor processing of one iteration of the scan loop in
`Sensor::checkAll`: poll the pin into `inputState` when
`pollingRequired && pin != VPIN_NONE`, then run the debounce cascade. -/
def scanStep (readFn : Nat → Bool) (mrc : Nat) (s0 : Sensor) : Sensor × Option (Int × Bool) :=
  debounceStep mrc
    (if s0.pollingRequired ∧ s0.data.pin ≠ VPIN_NONE then
      { s0 with inputState := readFn s0.data.pin } else s0)

/-- Body of the scan loop in `Sensor::checkAll`, starting with the cursor at
index `i`.  Each iteration runs `scanStep` on the sensor under the cursor
(possibly broadcasting and setting `pause`), advances the cursor, and
counts the sensor against the per-invocation quantum.  The loop counter
`sensorCount` of the source (pausing once `sensorCount >= 16` after the
increment) is carried here as the remaining budget `fuel = 16 -
sensorCount`, so that the `sensorCount++; if (sensorCount >= 16) pause =
true;` lines become `fuel` going from `fuel0 + 1` to `fuel0`, pausing when
`fuel0 = 0`.  Returns the updated sensor list, the final cursor, and the
broadcast events in order. -/
def checkLoop (readFn : Nat → Bool) (mrc : Nat) :
    Nat → List Sensor → Nat → List Sensor × Option Nat × List (Int × Bool)
  | 0, sensors, i => (sensors, some i, [])
  | fuel + 1, sensors, i =>
    if h : i < sensors.length then
      let step := scanStep readFn mrc (sensors.get ⟨i, h⟩)
      let sensors2 := sensors.set i step.1
      let cursor2 : Option Nat := if i + 1 < sensors.length then some (i + 1) else none
      if step.2.isSome = true ∨ fuel = 0 ∨ sensors.length ≤ i + 1 then
        (sensors2, cursor2, step.2.toList)
      else
        let rest := checkLoop readFn mrc fuel sensors2 (i + 1)
        (rest.1, rest.2.1, step.2.toList ++ rest.2.2)
    else (sensors, none, [])

/-- Cycle-start gate at the top of `Sensor::checkAll`: when the cursor is
idle (`readingSensor == NULL`) and at least `cyc` microseconds have elapsed
since `lastReadCycle` (32-bit unsigned comparison), point the cursor at the
list head and record the new cycle start time. -/
def startCycle (cyc thisTime : Nat) (st : SensorState) : SensorState :=
  match st.readingSensor with
  | some _ => st
  | none =>
    if cyc ≤ usub32 thisTime st.lastReadCycle then
      { st with
        readingSensor := if st.sensors.isEmpty then none else some 0
        lastReadCycle := thisTime }
    else st

/-- One invocation of `Sensor::checkAll`: return immediately when there are
no sensors, otherwise run the cycle-start gate and then the scan loop from
the cursor with `sensorCount = 0`.  Produces the new state and the list of
broadcast `(snum, active)` events of this invocation. -/
def checkAll (mrc cyc thisTime : Nat) (readFn : Nat → Bool)
    (st : SensorState) : SensorState × List (Int × Bool) :=
  if st.sensors.isEmpty then (st, [])
  else
    let st1 := startCycle cyc thisTime st
    match st1.readingSensor with
    | none => (st1, [])
    | some i =>
      let r := checkLoop readFn mrc 16 st1.sensors i
      ({ st1 with sensors := r.1, readingSensor := r.2.1 }, r.2.2)

/-- Unlink loop of `Sensor::remove`: walk the list for the first record with
`data.snum = snum`; when found, return its position together with the list
with that record unlinked. -/
def unlinkById (snum : Int) : List Sensor → Option (Nat × List Sensor)
  | [] => none
  | s :: rest =>
    if s.data.snum = snum then some (0, rest)
    else
      match unlinkById snum rest with
      | none => none
      | some p => some (p.1 + 1, s :: p.2)

/-- Embedding of `Sensor::remove(n)`: unlink and free the first sensor with
id `n`, repairing the scan cursor.  The C code compares the cursor pointer
with the removed node (`readingSensor == tt`) and, on a match, moves the
cursor to `tt->nextSensor`; in the index model the removed node is index
`j`, its successor sits at index `j` of the shortened list (or is `NULL`
when `j` was last), a cursor past `j` keeps its node but its index drops by
one, and a cursor before `j` is untouched. -/
def remove (n : Int) (st : SensorState) : Bool × SensorState :=
  match unlinkById n st.sensors with
  | none => (false, st)
  | some p =>
    let cursor : Option Nat :=
      match st.readingSensor with
      | none => none
      | some i =>
        if i = p.1 then (if p.1 < p.2.length then some p.1 else none)
        else if p.1 < i then some (i - 1)
        else some i
    (true, { st with sensors := p.2, readingSensor := cursor })

/-- The freshly allocated and initialised sensor of `Sensor::create`:
`calloc` zero-fill plus the explicit field assignments (`pollingRequired`
from the pin sentinel and the change-notification capability `hasCb`,
`active = 0`, `inputState = 0`, `latchDelay = minReadCount`). -/
def initSensor (mrc : Nat) (hasCb : Nat → Bool) (snum : Int) (pin : Nat)
    (pullUp : Int) : Sensor :=
  { data := { snum := snum, pin := pin, pullUp := pullUp }
    active := false
    inputState := false
    latchDelay := mrc
    pollingRequired :=
      if pin = VPIN_NONE then false
      else if hasCb pin then false
      else true }

/-- Embedding of `Sensor::create(snum, pin, pullUp)`: reject an out-of-range
pin, remove any existing sensor with the same id, then allocate (`allocOk`
is the `calloc` outcome; on failure the function returns `NULL` with the
removal already performed) and push the new record on the list head.  Head
insertion leaves the cursor's node unchanged, so a cursor index shifts up
by one. -/
def create (mrc : Nat) (hasCb : Nat → Bool) (allocOk : Bool) (snum : Int)
    (pin : Nat) (pullUp : Int) (st : SensorState) : Option Sensor × SensorState :=
  if VPIN_MAX < pin ∧ pin ≠ VPIN_NONE then (none, st)
  else
    let st1 := (remove snum st).2
    if allocOk then
      let tt := initSensor mrc hasCb snum pin pullUp
      (some tt,
        { st1 with
          sensors := tt :: st1.sensors
          readingSensor := st1.readingSensor.map (· + 1) })
    else (none, st1)

/-- Embedding of `Sensor::get(n)`: linear lookup by id. -/
def get (n : Int) (st : SensorState) : Option Sensor :=
  st.sensors.find? (fun s => s.data.snum == n)

/-- Embedding of `Sensor::setState(value)`: store the injected raw state and
zero the debounce countdown. -/
def setState (value : Int) (s : Sensor) : Sensor :=
  { s with inputState := value != 0, latchDelay := 0 }

/-- Search-and-update loop of `Sensor::inputChangeCallback`: find the first
sensor whose pin matches `vpin` and set its `inputState` from the notified
level; all other records are untouched. -/
def inputChangeList (vpin : Nat) (level : Int) : List Sensor → List Sensor
  | [] => []
  | s :: rest =>
    if s.data.pin = vpin then { s with inputState := level != 0 } :: rest
    else s :: inputChangeList vpin level rest

/-- Embedding of `Sensor::inputChangeCallback(vpin, state)`. -/
def inputChangeCallback (vpin : Nat) (level : Int) (st : SensorState) : SensorState :=
  { st with sensors := inputChangeList vpin level st.sensors }

/-- Embedding of `Sensor::store()`: write each sensor's persisted `data`
record to the EEPROM region in list order and recompute the `nSensors`
header as the number of records written. -/
def store (st : SensorState) : List SensorData × Nat :=
  (st.sensors.map (fun s => s.data), st.sensors.length)

/-- Embedding of `Sensor::load()`: read the stored records in order and
re-`create` each one (the C code does not check the result of `create`, so
allocation is taken to succeed). -/
def load (mrc : Nat) (hasCb : Nat → Bool) : List SensorData → SensorState → SensorState
  | [], st => st
  | d :: rest, st =>
    load mrc hasCb rest (create mrc hasCb true d.snum d.pin d.pullUp st).2

/-! Helper lemmas about the single-sensor tick runner. -/

theorem runTicks_append (mrc : Nat) (l1 l2 : List Bool) (s : Sensor) :
    runTicks mrc (l1 ++ l2) s =
      ((runTicks mrc l2 (runTicks mrc l1 s).1).1,
        (runTicks mrc l1 s).2 ++ (runTicks mrc l2 (runTicks mrc l1 s).1).2) := by
  induction l1 generalizing s with
  | nil => simp [runTicks]
  | cons a l ih => simp [runTicks, ih, List.append_assoc]

theorem runTicks_settle (mrc : Nat) (b : Bool) :
    ∀ (k : Nat) (s : Sensor), s.active = !b → s.latchDelay = k →
      (runTicks mrc (List.replicate k b) s).2 = [] ∧
      (runTicks mrc (List.replicate k b) s).1.active = s.active ∧
      (runTicks mrc (List.replicate k b) s).1.latchDelay = 0 ∧
      (runTicks mrc (List.replicate k b) s).1.data = s.data := by
  intro k
  induction k with
  | zero => intro s hA hL; simp [runTicks, hL]
  | succ k ih =>
    intro s hA hL
    have hbe : (b = s.active) ↔ False := by rw [hA]; cases b <;> simp
    have h1 : tickRaw mrc b s = ({ s with inputState := b, latchDelay := k }, none) := by
      simp [tickRaw, debounceStep, hbe, hL]
    obtain ⟨e1, e2, e3, e4⟩ := ih { s with inputState := b, latchDelay := k } hA rfl
    refine ⟨?_, ?_, ?_, ?_⟩ <;>
      simp [List.replicate_succ, runTicks, h1, e1, e2, e3, e4]

/-- Sensor used by the concrete debounce scenarios: threshold 3, committed
inactive, counter full. -/
def c1Sensor : Sensor :=
  { data := { snum := 7, pin := 100, pullUp := 0 }
    active := false
    inputState := false
    latchDelay := 3
    pollingRequired := true }

/-- C1 (counterexample): with threshold 3, a descriptor committed inactive
and the raw samples `[true, true, false, true, true, true]` over six scan
ticks, the code commits nothing at all (the counter only reaches 0 at the
sixth tick; the commit would happen on a seventh differing tick), so the
claimed commit at exactly the sixth tick does not occur.  A seventh `true`
sample does produce the commit. -/
theorem debounce_scenario_no_commit_at_tick_six :
    (runTicks 3 [true, true, false, true, true, true] c1Sensor).2 = [] ∧
    (runTicks 3 [true, true, false, true, true, true] c1Sensor).1.active = false ∧
    (runTicks 3 [true, true, false, true, true, true, true] c1Sensor).2 = [(7, true)] := by
  decide

/-- C1 (amended): with debounce threshold `mrc` and a descriptor in a
committed state (`latchDelay = mrc`), consecutive scan ticks all observing
the opposite raw sample `b` commit the new level at exactly the
`(mrc + 1)`-th such tick: the first `mrc` ticks only count down and emit
nothing, the next tick commits `b` and broadcasts it; and any tick whose
raw sample equals the committed state resets the pending counter to the
threshold. -/
theorem debounce_commits_at_threshold_plus_one (mrc : Nat) (b : Bool) (s : Sensor)
    (hA : s.active = !b) (hL : s.latchDelay = mrc) :
    (runTicks mrc (List.replicate mrc b) s).2 = [] ∧
    (runTicks mrc (List.replicate (mrc + 1) b) s).2 = [(s.data.snum, b)] ∧
    (runTicks mrc (List.replicate (mrc + 1) b) s).1.active = b ∧
    ∀ t : Sensor, (tickRaw mrc t.active t).1.latchDelay = mrc := by
  obtain ⟨e1, e2, e3, e4⟩ := runTicks_settle mrc b mrc s hA hL
  have hrep : List.replicate (mrc + 1) b = List.replicate mrc b ++ [b] :=
    List.replicate_succ' ..
  have happ := runTicks_append mrc (List.replicate mrc b) [b] s
  have hbe : (b = (runTicks mrc (List.replicate mrc b) s).1.active) ↔ False := by
    rw [e2, hA]; cases b <;> simp
  have hcommit :
      runTicks mrc [b] (runTicks mrc (List.replicate mrc b) s).1 =
        ({ (runTicks mrc (List.replicate mrc b) s).1 with
            inputState := b, active := b, latchDelay := mrc },
          [((runTicks mrc (List.replicate mrc b) s).1.data.snum, b)]) := by
    simp [runTicks, tickRaw, debounceStep, hbe, e3]
  refine ⟨e1, ?_, ?_, ?_⟩
  · rw [hrep, happ]; simp [hcommit, e1, e4]
  · rw [hrep, happ]; simp [hcommit]
  · intro t; simp [tickRaw, debounceStep]

/-- Witness for the amended C1 at threshold 2: two opposite ticks emit
nothing, the third commits and broadcasts. -/
theorem debounce_commits_at_threshold_plus_one_witness :
    (runTicks 2 (List.replicate 2 true) { c1Sensor with latchDelay := 2 }).2 = [] ∧
    (runTicks 2 (List.replicate 3 true) { c1Sensor with latchDelay := 2 }).2 = [(7, true)] := by
  have h := debounce_commits_at_threshold_plus_one 2 true
    { c1Sensor with latchDelay := 2 } (by decide) (by decide)
  exact ⟨h.1, h.2.1⟩

/-! Helper lemmas about the unlink loop of `remove`. -/

theorem unlinkById_eq_none (n : Int) :
    ∀ l : List Sensor, unlinkById n l = none ↔ ∀ x ∈ l, x.data.snum ≠ n := by
  intro l
  induction l with
  | nil => simp [unlinkById]
  | cons s rest ih =>
    simp only [unlinkById, List.mem_cons]
    by_cases h : s.data.snum = n
    · simp [h]
    · cases hrec : unlinkById n rest with
      | none =>
        simp only [if_neg h, hrec]
        constructor
        · intro _ x hx
          rcases hx with hx | hx
          · rw [hx]; exact h
          · exact (ih.mp hrec) x hx
        · intro _; trivial
      | some p =>
        simp only [if_neg h, hrec]
        constructor
        · intro hcontr; exact absurd hcontr (by simp)
        · intro hall
          have : unlinkById n rest = none := ih.mpr (fun x hx => hall x (Or.inr hx))
          rw [this] at hrec; exact absurd hrec (by simp)

theorem unlinkById_spec (n : Int) :
    ∀ (l : List Sensor) (j : Nat) (l' : List Sensor),
      unlinkById n l = some (j, l') →
      l'.length + 1 = l.length ∧
      (∀ k, j ≤ k → l'.get? k = l.get? (k + 1)) ∧
      (∀ k, k < j → l'.get? k = l.get? k) ∧
      ∃ x, l.get? j = some x ∧ x.data.snum = n := by
  intro l
  induction l with
  | nil => intro j l' h; simp [unlinkById] at h
  | cons s rest ih =>
    intro j l' h
    by_cases hs : s.data.snum = n
    · simp only [unlinkById, if_pos hs, Option.some.injEq, Prod.mk.injEq] at h
      obtain ⟨hj, hl'⟩ := h
      subst hj; subst hl'
      exact ⟨by simp, fun k _ => by simp, fun k hk => by omega, s, by simp, hs⟩
    · simp only [unlinkById, if_neg hs] at h
      cases hrec : unlinkById n rest with
      | none => rw [hrec] at h; exact absurd h (by simp)
      | some p =>
        rw [hrec] at h
        simp only [Option.some.injEq, Prod.mk.injEq] at h
        obtain ⟨hj, hl'⟩ := h
        subst hj; subst hl'
        obtain ⟨hL, hG, hLt, x, hx, hxn⟩ := ih p.1 p.2 hrec
        refine ⟨by simpa using hL, ?_, ?_, x, by simpa using hx, hxn⟩
        · intro k hk
          obtain ⟨k', rfl⟩ : ∃ k', k = k' + 1 := ⟨k - 1, by omega⟩
          simpa using hG k' (by omega)
        · intro k hk
          cases k with
          | zero => simp
          | succ k' => simpa using hLt k' (by omega)

theorem unlinkById_rest_ne (n : Int) :
    ∀ (l : List Sensor) (j : Nat) (l' : List Sensor),
      l.Pairwise (fun a b => a.data.snum ≠ b.data.snum) →
      unlinkById n l = some (j, l') →
      ∀ x ∈ l', x.data.snum ≠ n := by
  intro l
  induction l with
  | nil => intro j l' _ h; simp [unlinkById] at h
  | cons s rest ih =>
    intro j l' hpw h
    rw [List.pairwise_cons] at hpw
    by_cases hs : s.data.snum = n
    · simp only [unlinkById, if_pos hs, Option.some.injEq, Prod.mk.injEq] at h
      obtain ⟨_, hl'⟩ := h
      subst hl'
      intro x hx
      have := hpw.1 x hx
      rw [hs] at this
      exact fun hc => this (by rw [hc])
    · simp only [unlinkById, if_neg hs] at h
      cases hrec : unlinkById n rest with
      | none => rw [hrec] at h; exact absurd h (by simp)
      | some p =>
        rw [hrec] at h
        simp only [Option.some.injEq, Prod.mk.injEq] at h
        obtain ⟨_, hl'⟩ := h
        subst hl'
        intro x hx
        rcases List.mem_cons.mp hx with hx | hx
        · rw [hx]; exact hs
        · exact ih p.1 p.2 hpw.2 hrec x hx

theorem remove_not_found (n : Int) (st : SensorState)
    (h : ∀ x ∈ st.sensors, x.data.snum ≠ n) :
    remove n st = (false, st) := by
  unfold remove
  rw [(unlinkById_eq_none n st.sensors).mpr h]

/-- Registry with one sensor, id 5, used by the concrete create/remove
scenarios. -/
def c2Sensor : Sensor :=
  { data := { snum := 5, pin := 10, pullUp := 1 }
    active := false, inputState := false, latchDelay := 2, pollingRequired := true }

/-- State holding just `c2Sensor`. -/
def c2State : SensorState :=
  { sensors := [c2Sensor], readingSensor := none, lastReadCycle := 0 }

/-- C2 (counterexample): `create` removes any same-id sensor before calling
`calloc`, so when allocation fails the registry is NOT as it was before the
call: the pre-existing sensor with id 5 is gone. -/
theorem create_allocfail_counterexample :
    (create 2 (fun _ => false) false 5 10 1 c2State).1 = none ∧
    (create 2 (fun _ => false) false 5 10 1 c2State).2.sensors = [] ∧
    c2State.sensors = [c2Sensor] ∧
    (create 2 (fun _ => false) false 5 10 1 c2State).2 ≠ c2State := by
  decide

/-- C2 (amended): when allocation fails, `create` returns a failure
indication; if the pin was invalid the registry is untouched, and otherwise
the registry is exactly the prior registry with the first descriptor of the
same id removed (so it is unchanged precisely when no descriptor with that
id existed). -/
theorem create_allocfail_removes_same_id (mrc : Nat) (hasCb : Nat → Bool)
    (snum : Int) (pin : Nat) (pullUp : Int) (st : SensorState) :
    (create mrc hasCb false snum pin pullUp st).1 = none ∧
    (VPIN_MAX < pin ∧ pin ≠ VPIN_NONE →
      (create mrc hasCb false snum pin pullUp st).2 = st) ∧
    (¬(VPIN_MAX < pin ∧ pin ≠ VPIN_NONE) →
      (create mrc hasCb false snum pin pullUp st).2 = (remove snum st).2) ∧
    ((∀ x ∈ st.sensors, x.data.snum ≠ snum) →
      (create mrc hasCb false snum pin pullUp st).2 = st) := by
  by_cases hpin : VPIN_MAX < pin ∧ pin ≠ VPIN_NONE
  · refine ⟨?_, fun _ => ?_, fun hc => absurd hpin hc, fun _ => ?_⟩ <;>
      simp [create, hpin]
  · refine ⟨?_, fun hc => absurd hc hpin, fun _ => ?_, fun hno => ?_⟩
    · simp [create, hpin]
    · simp [create, hpin]
    · simp [create, hpin, remove_not_found snum st hno]

/-- Witness for the amended C2 on a concrete registry holding id 5. -/
theorem create_allocfail_removes_same_id_witness :
    (create 2 (fun _ => false) false 5 10 1 c2State).1 = none ∧
    (create 2 (fun _ => false) false 5 10 1 c2State).2 = (remove 5 c2State).2 := by
  have h := create_allocfail_removes_same_id 2 (fun _ => false) 5 10 1 c2State
  exact ⟨h.1, h.2.2.1 (by decide)⟩

/-- Helper: after `remove n`, no remaining descriptor carries id `n`,
provided ids were pairwise distinct. -/
theorem remove_sensors_ne (n : Int) (st : SensorState)
    (hnd : st.sensors.Pairwise (fun a b => a.data.snum ≠ b.data.snum)) :
    ∀ x ∈ (remove n st).2.sensors, x.data.snum ≠ n := by
  unfold remove
  cases hu : unlinkById n st.sensors with
  | none => simpa using (unlinkById_eq_none n st.sensors).mp hu
  | some p =>
    simpa using unlinkById_rest_ne n st.sensors p.1 p.2 hnd (by rw [hu])

/-- C6: on a registry with pairwise-distinct ids and a valid pin, a
successful `create(id, pin, pullUp)` yields a registry with exactly one
descriptor of that id; it is the returned descriptor, it sits at the list
head, it carries the supplied id, pin and pull-up, and no other descriptor
(in particular no prior one with that id) remains with that id. -/
theorem create_replaces_id (mrc : Nat) (hasCb : Nat → Bool) (snum : Int)
    (pin : Nat) (pullUp : Int) (st : SensorState)
    (hnd : st.sensors.Pairwise (fun a b => a.data.snum ≠ b.data.snum))
    (hpin : ¬(VPIN_MAX < pin ∧ pin ≠ VPIN_NONE)) :
    ∃ s : Sensor,
      (create mrc hasCb true snum pin pullUp st).1 = some s ∧
      (create mrc hasCb true snum pin pullUp st).2.sensors.head? = some s ∧
      s.data.snum = snum ∧ s.data.pin = pin ∧ s.data.pullUp = pullUp ∧
      (create mrc hasCb true snum pin pullUp st).2.sensors.countP
        (fun x => x.data.snum == snum) = 1 ∧
      ∀ x ∈ (create mrc hasCb true snum pin pullUp st).2.sensors.tail,
        x.data.snum ≠ snum := by
  have hrest := remove_sensors_ne snum st hnd
  have hcr : create mrc hasCb true snum pin pullUp st =
      (some (initSensor mrc hasCb snum pin pullUp),
        { sensors := initSensor mrc hasCb snum pin pullUp :: (remove snum st).2.sensors
          readingSensor := Option.map (fun x => x + 1) (remove snum st).2.readingSensor
          lastReadCycle := (remove snum st).2.lastReadCycle }) := by
    simp [create, hpin]
  refine ⟨initSensor mrc hasCb snum pin pullUp, ?_, ?_, rfl, rfl, rfl, ?_, ?_⟩
  · rw [hcr]
  · rw [hcr]; rfl
  · rw [hcr]
    have h0 : ((remove snum st).2.sensors.countP (fun x => x.data.snum == snum)) = 0 :=
      List.countP_eq_zero.mpr (fun x hx => by simpa using hrest x hx)
    simp [List.countP_cons, h0, initSensor]
  · rw [hcr]
    simpa using hrest

/-- Witness for C6: creating id 5 again on the one-sensor registry leaves
exactly one descriptor with id 5, at the head, and it is the returned one. -/
theorem create_replaces_id_witness :
    (create 2 (fun _ => false) true 5 20 0 c2State).2.sensors.head? =
      (create 2 (fun _ => false) true 5 20 0 c2State).1 ∧
    (create 2 (fun _ => false) true 5 20 0 c2State).2.sensors.countP
      (fun x => x.data.snum == 5) = 1 := by
  obtain ⟨s, h1, h2, _, _, _, h6, _⟩ :=
    create_replaces_id 2 (fun _ => false) 5 20 0 c2State (by simp [c2State]) (by decide)
  exact ⟨by rw [h1, h2], h6⟩

/-- C7: removing the descriptor the scan cursor currently references (the
unlink loop finds it at the cursor's own position `i`) advances the cursor
to that descriptor's successor — index `i` of the shortened list, or idle
when it was last — so the cursor refers to a live list slot holding the
old successor, never to the removed record. -/
theorem remove_at_cursor (n : Int) (st : SensorState) (i : Nat) (l' : List Sensor)
    (hcur : st.readingSensor = some i)
    (hun : unlinkById n st.sensors = some (i, l')) :
    (remove n st).1 = true ∧
    (remove n st).2.sensors = l' ∧
    (remove n st).2.readingSensor = (if i < l'.length then some i else none) ∧
    ∀ k, (remove n st).2.readingSensor = some k →
      k < (remove n st).2.sensors.length ∧
      (remove n st).2.sensors.get? k = st.sensors.get? (i + 1) := by
  obtain ⟨hL, hG, hLt, hx⟩ := unlinkById_spec n st.sensors i l' hun
  have hrm : remove n st =
      (true, { st with sensors := l', readingSensor := if i < l'.length then some i else none }) := by
    unfold remove
    rw [hun, hcur]
    simp
  refine ⟨by rw [hrm], by rw [hrm], by rw [hrm], ?_⟩
  intro k hk
  rw [hrm] at hk ⊢
  by_cases hlen : i < l'.length
  · simp only [if_pos hlen, Option.some.injEq] at hk
    subst hk
    exact ⟨by simpa using hlen, by simpa using hG i (Nat.le_refl i)⟩
  · simp [if_neg hlen] at hk

/-- Sensors for the cursor-removal scenario. -/
def c7a : Sensor :=
  { data := { snum := 1, pin := 11, pullUp := 0 }
    active := false, inputState := false, latchDelay := 2, pollingRequired := true }

/-- Second sensor of the cursor-removal scenario. -/
def c7b : Sensor :=
  { data := { snum := 2, pin := 12, pullUp := 0 }
    active := false, inputState := false, latchDelay := 2, pollingRequired := true }

/-- Two-sensor registry with the cursor on the first sensor. -/
def c7State : SensorState :=
  { sensors := [c7a, c7b], readingSensor := some 0, lastReadCycle := 0 }

/-- Witness for C7: with the cursor on the sensor of id 1, removing id 1
moves the cursor to its successor (the sensor of id 2). -/
theorem remove_at_cursor_witness :
    (remove 1 c7State).1 = true ∧
    (remove 1 c7State).2.sensors = [c7b] ∧
    (remove 1 c7State).2.readingSensor = some 0 ∧
    (remove 1 c7State).2.sensors.get? 0 = c7State.sensors.get? 1 := by
  have h := remove_at_cursor 1 c7State 0 [c7b] (by decide) (by decide)
  have hc : (remove 1 c7State).2.readingSensor = some 0 := by simpa using h.2.2.1
  exact ⟨h.1, h.2.1, hc, (h.2.2.2 0 hc).2⟩

/-- C5: when the scan cursor is idle and less than the minimum inter-cycle
interval has elapsed (32-bit unsigned difference) since the recorded start
of the previous cycle, an invocation of `checkAll` does no work at all: the
state is returned unchanged and nothing is broadcast, no matter how often
it is invoked. -/
theorem checkAll_gated (mrc cyc thisTime : Nat) (readFn : Nat → Bool)
    (st : SensorState)
    (hidle : st.readingSensor = none)
    (hlt : usub32 thisTime st.lastReadCycle < cyc) :
    checkAll mrc cyc thisTime readFn st = (st, []) := by
  have hng : ¬ cyc ≤ usub32 thisTime st.lastReadCycle := by omega
  unfold checkAll startCycle
  simp [hidle, hng]

/-- Witness for C5: 5 microseconds elapsed, 10000 required — the invocation
returns the one-sensor registry untouched. -/
theorem checkAll_gated_witness :
    checkAll 2 10000 5 (fun _ => false) c2State = (c2State, []) :=
  checkAll_gated 2 10000 5 (fun _ => false) c2State rfl (by decide)

/-! Helper lemmas about the scan loop. -/

theorem checkLoop_length (readFn : Nat → Bool) (mrc : Nat) :
    ∀ (fuel : Nat) (sensors : List Sensor) (i : Nat),
      (checkLoop readFn mrc fuel sensors i).1.length = sensors.length := by
  intro fuel
  induction fuel with
  | zero => intro sensors i; rfl
  | succ fuel ih =>
    intro sensors i
    simp only [checkLoop]
    split
    · split
      · simp
      · simp [ih]
    · rfl

theorem checkLoop_get?_outside (readFn : Nat → Bool) (mrc : Nat) :
    ∀ (fuel : Nat) (sensors : List Sensor) (i j : Nat),
      j < i ∨ i + fuel ≤ j →
      (checkLoop readFn mrc fuel sensors i).1.get? j = sensors.get? j := by
  intro fuel
  induction fuel with
  | zero => intro sensors i j _; rfl
  | succ fuel ih =>
    intro sensors i j hj
    have hji : i ≠ j := by omega
    simp only [checkLoop]
    split
    · split
      · exact List.get?_set_ne _ _ hji
      · rw [ih _ (i + 1) j (by omega)]
        exact List.get?_set_ne _ _ hji
    · rfl

theorem checkLoop_events_le_one (readFn : Nat → Bool) (mrc : Nat) :
    ∀ (fuel : Nat) (sensors : List Sensor) (i : Nat),
      (checkLoop readFn mrc fuel sensors i).2.2.length ≤ 1 := by
  intro fuel
  induction fuel with
  | zero => intro sensors i; simp [checkLoop]
  | succ fuel ih =>
    intro sensors i
    simp only [checkLoop]
    split
    · rename_i h
      split
      · cases hs : (scanStep readFn mrc (sensors.get ⟨i, h⟩)).2 <;> simp [hs]
      · rename_i hcond
        simp only [not_or] at hcond
        have hnone : (scanStep readFn mrc sensors[i]).2 = none := by
          cases hs : (scanStep readFn mrc sensors[i]).2
          · rfl
          · exact absurd (by rw [show (scanStep readFn mrc (sensors.get ⟨i, h⟩)).2
              = some _ from hs]; rfl) hcond.1
        simp [hnone, ih]
    · simp

theorem checkLoop_succ_stop (readFn : Nat → Bool) (mrc fuel : Nat)
    (sensors : List Sensor) (i : Nat) (h : i < sensors.length)
    (hc : (scanStep readFn mrc (sensors.get ⟨i, h⟩)).2.isSome = true ∨
      fuel = 0 ∨ sensors.length ≤ i + 1) :
    checkLoop readFn mrc (fuel + 1) sensors i =
      (sensors.set i (scanStep readFn mrc (sensors.get ⟨i, h⟩)).1,
        (if i + 1 < sensors.length then some (i + 1) else none),
        (scanStep readFn mrc (sensors.get ⟨i, h⟩)).2.toList) := by
  simp only [checkLoop]
  rw [dif_pos h, if_pos hc]

theorem checkLoop_succ_go (readFn : Nat → Bool) (mrc fuel : Nat)
    (sensors : List Sensor) (i : Nat) (h : i < sensors.length)
    (hc : ¬((scanStep readFn mrc (sensors.get ⟨i, h⟩)).2.isSome = true ∨
      fuel = 0 ∨ sensors.length ≤ i + 1)) :
    checkLoop readFn mrc (fuel + 1) sensors i =
      ((checkLoop readFn mrc fuel
          (sensors.set i (scanStep readFn mrc (sensors.get ⟨i, h⟩)).1) (i + 1)).1,
        (checkLoop readFn mrc fuel
          (sensors.set i (scanStep readFn mrc (sensors.get ⟨i, h⟩)).1) (i + 1)).2.1,
        (scanStep readFn mrc (sensors.get ⟨i, h⟩)).2.toList ++
          (checkLoop readFn mrc fuel
            (sensors.set i (scanStep readFn mrc (sensors.get ⟨i, h⟩)).1) (i + 1)).2.2) := by
  simp only [checkLoop]
  rw [dif_pos h, if_neg hc]

theorem checkLoop_succ_end (readFn : Nat → Bool) (mrc fuel : Nat)
    (sensors : List Sensor) (i : Nat) (h : ¬ i < sensors.length) :
    checkLoop readFn mrc (fuel + 1) sensors i = (sensors, none, []) := by
  simp only [checkLoop]
  rw [dif_neg h]

theorem checkLoop_stop_after_event (readFn : Nat → Bool) (mrc : Nat) :
    ∀ (fuel : Nat) (sensors : List Sensor) (i : Nat),
      (checkLoop readFn mrc fuel sensors i).2.2 ≠ [] →
      ∃ k, i ≤ k ∧ k < sensors.length ∧
        (checkLoop readFn mrc fuel sensors i).2.1 =
          (if k + 1 < sensors.length then some (k + 1) else none) ∧
        ∀ j, k < j →
          (checkLoop readFn mrc fuel sensors i).1.get? j = sensors.get? j := by
  intro fuel
  induction fuel with
  | zero => intro sensors i hne; exact absurd rfl hne
  | succ fuel ih =>
    intro sensors i hne
    by_cases h : i < sensors.length
    · by_cases hc : (scanStep readFn mrc (sensors.get ⟨i, h⟩)).2.isSome = true ∨
        fuel = 0 ∨ sensors.length ≤ i + 1
      · rw [checkLoop_succ_stop readFn mrc fuel sensors i h hc]
        refine ⟨i, Nat.le_refl i, h, rfl, ?_⟩
        intro j hj
        exact List.get?_set_ne _ _ (Nat.ne_of_lt hj)
      · rw [checkLoop_succ_go readFn mrc fuel sensors i h hc] at hne ⊢
        have hc' := hc
        simp only [not_or] at hc'
        have hnone : (scanStep readFn mrc (sensors.get ⟨i, h⟩)).2 = none := by
          cases hs : (scanStep readFn mrc (sensors.get ⟨i, h⟩)).2
          · rfl
          · exact absurd (by rw [hs]; rfl) hc'.1
        rw [hnone] at hne ⊢
        simp only [Option.toList_none, List.nil_append] at hne ⊢
        obtain ⟨k, hik, hklen, hcur, hunch⟩ :=
          ih (sensors.set i (scanStep readFn mrc (sensors.get ⟨i, h⟩)).1) (i + 1) hne
        refine ⟨k, by omega, by simpa using hklen, ?_, ?_⟩
        · rw [hcur]
          simp
        · intro j hj
          rw [hunch j hj, List.get?_set_ne _ _ (by omega)]
    · rw [checkLoop_succ_end readFn mrc fuel sensors i h] at hne
      exact absurd rfl hne

theorem startCycle_sensors (cyc thisTime : Nat) (st : SensorState) :
    (startCycle cyc thisTime st).sensors = st.sensors := by
  unfold startCycle
  split
  · rfl
  · split <;> rfl

theorem checkAll_empty_eq (mrc cyc thisTime : Nat) (readFn : Nat → Bool)
    (st : SensorState) (h : st.sensors.isEmpty = true) :
    checkAll mrc cyc thisTime readFn st = (st, []) := by
  unfold checkAll
  rw [if_pos h]

theorem checkAll_none_eq (mrc cyc thisTime : Nat) (readFn : Nat → Bool)
    (st : SensorState) (hemp : ¬ st.sensors.isEmpty = true)
    (hc : (startCycle cyc thisTime st).readingSensor = none) :
    checkAll mrc cyc thisTime readFn st = (startCycle cyc thisTime st, []) := by
  unfold checkAll
  rw [if_neg hemp]
  simp only [hc]

theorem checkAll_some_eq (mrc cyc thisTime : Nat) (readFn : Nat → Bool)
    (st : SensorState) (i : Nat) (hemp : ¬ st.sensors.isEmpty = true)
    (hc : (startCycle cyc thisTime st).readingSensor = some i) :
    checkAll mrc cyc thisTime readFn st =
      ({ startCycle cyc thisTime st with
          sensors := (checkLoop readFn mrc 16 (startCycle cyc thisTime st).sensors i).1
          readingSensor :=
            (checkLoop readFn mrc 16 (startCycle cyc thisTime st).sensors i).2.1 },
        (checkLoop readFn mrc 16 (startCycle cyc thisTime st).sensors i).2.2) := by
  unfold checkAll
  rw [if_neg hemp]
  simp only [hc]

/-- C3: one invocation of `checkAll` broadcasts at most one transition,
however many scanned descriptors are ready to commit; and once a
transition has been committed no further descriptor is scanned, so every
descriptor from the final cursor position on is exactly as it was before
the invocation. -/
theorem checkAll_at_most_one_transition (mrc cyc thisTime : Nat)
    (readFn : Nat → Bool) (st : SensorState) :
    (checkAll mrc cyc thisTime readFn st).2.length ≤ 1 ∧
    ∀ m j, (checkAll mrc cyc thisTime readFn st).2 ≠ [] →
      (checkAll mrc cyc thisTime readFn st).1.readingSensor = some m →
      m ≤ j →
      (checkAll mrc cyc thisTime readFn st).1.sensors.get? j = st.sensors.get? j := by
  by_cases hemp : st.sensors.isEmpty = true
  · rw [checkAll_empty_eq mrc cyc thisTime readFn st hemp]
    exact ⟨by simp, by simp⟩
  · cases hc : (startCycle cyc thisTime st).readingSensor with
    | none =>
      rw [checkAll_none_eq mrc cyc thisTime readFn st hemp hc]
      exact ⟨by simp, by simp⟩
    | some i =>
      rw [checkAll_some_eq mrc cyc thisTime readFn st i hemp hc]
      constructor
      · exact checkLoop_events_le_one readFn mrc 16 _ i
      · intro m j hne hcur hmj
        obtain ⟨k, hik, hklen, hcureq, hunch⟩ :=
          checkLoop_stop_after_event readFn mrc 16
            (startCycle cyc thisTime st).sensors i hne
        have hcur' : (checkLoop readFn mrc 16
            (startCycle cyc thisTime st).sensors i).2.1 = some m := hcur
        rw [hcureq] at hcur'
        by_cases hk1 : k + 1 < (startCycle cyc thisTime st).sensors.length
        · rw [if_pos hk1, Option.some.injEq] at hcur'
          subst hcur'
          show (checkLoop readFn mrc 16
            (startCycle cyc thisTime st).sensors i).1.get? j = st.sensors.get? j
          rw [hunch j (by omega), startCycle_sensors]
        · rw [if_neg hk1] at hcur'
          exact absurd hcur' (by simp)

/-- Sensor that commits on its very next scan tick (used by the scheduler
scenarios): raw sample active, committed inactive, countdown exhausted,
not polled. -/
def c3a : Sensor :=
  { data := { snum := 1, pin := 4, pullUp := 0 }
    active := false, inputState := true, latchDelay := 0, pollingRequired := false }

/-- Second immediately-committing sensor. -/
def c3b : Sensor :=
  { data := { snum := 2, pin := 6, pullUp := 0 }
    active := false, inputState := true, latchDelay := 0, pollingRequired := false }

/-- Two sensors both ready to commit, cursor idle. -/
def c3State : SensorState :=
  { sensors := [c3a, c3b], readingSensor := none, lastReadCycle := 0 }

/-- Witness for C3: with two descriptors both ready to commit, one
invocation broadcasts one transition and leaves the second descriptor (at
the final cursor position 1) untouched. -/
theorem checkAll_at_most_one_transition_witness :
    (checkAll 3 0 0 (fun _ => false) c3State).2.length ≤ 1 ∧
    (checkAll 3 0 0 (fun _ => false) c3State).1.sensors.get? 1 =
      c3State.sensors.get? 1 := by
  have h := checkAll_at_most_one_transition 3 0 0 (fun _ => false) c3State
  exact ⟨h.1, h.2 1 1 (by decide) (by decide) (by decide)⟩

/-- C4: a single invocation of `checkAll` scans at most 16 descriptors: no
descriptor at or beyond 16 positions after the entry cursor is mutated in
that invocation. -/
theorem checkAll_quantum (mrc cyc thisTime : Nat) (readFn : Nat → Bool)
    (st : SensorState) (i j : Nat)
    (hcur : (startCycle cyc thisTime st).readingSensor = some i)
    (hj : i + 16 ≤ j) :
    (checkAll mrc cyc thisTime readFn st).1.sensors.get? j = st.sensors.get? j := by
  by_cases hemp : st.sensors.isEmpty = true
  · rw [checkAll_empty_eq mrc cyc thisTime readFn st hemp]
  · rw [checkAll_some_eq mrc cyc thisTime readFn st i hemp hcur]
    show (checkLoop readFn mrc 16
      (startCycle cyc thisTime st).sensors i).1.get? j = st.sensors.get? j
    rw [checkLoop_get?_outside readFn mrc 16 _ i j (Or.inr (by omega))]
    rw [startCycle_sensors]

/-- Registry of 17 identical sensors with the cursor on the head. -/
def c4State : SensorState :=
  { sensors := List.replicate 17 c7a, readingSensor := some 0, lastReadCycle := 0 }

/-- Witness for C4: on a 17-sensor registry the 17th descriptor (index 16)
is untouched by one invocation. -/
theorem checkAll_quantum_witness :
    (checkAll 1 0 0 (fun _ => true) c4State).1.sensors.get? 16 =
      c4State.sensors.get? 16 :=
  checkAll_quantum 1 0 0 (fun _ => true) c4State 0 16 rfl (by omega)

/-! Helper lemmas for persistence. -/

theorem create_fresh_sensors (mrc : Nat) (hasCb : Nat → Bool) (snum : Int)
    (pin : Nat) (pullUp : Int) (st : SensorState)
    (hpin : ¬(VPIN_MAX < pin ∧ pin ≠ VPIN_NONE))
    (hno : ∀ x ∈ st.sensors, x.data.snum ≠ snum) :
    (create mrc hasCb true snum pin pullUp st).2.sensors =
      initSensor mrc hasCb snum pin pullUp :: st.sensors := by
  simp [create, hpin, remove_not_found snum st hno]

theorem load_sensors (mrc : Nat) (hasCb : Nat → Bool) :
    ∀ (records : List SensorData) (acc : SensorState),
      (∀ d ∈ records, ¬(VPIN_MAX < d.pin ∧ d.pin ≠ VPIN_NONE)) →
      (∀ d ∈ records, ∀ x ∈ acc.sensors, x.data.snum ≠ d.snum) →
      records.Pairwise (fun a b => a.snum ≠ b.snum) →
      (load mrc hasCb records acc).sensors =
        (records.map (fun d => initSensor mrc hasCb d.snum d.pin d.pullUp)).reverse
          ++ acc.sensors := by
  intro records
  induction records with
  | nil => intro acc _ _ _; simp [load]
  | cons d rest ih =>
    intro acc hpins hdisj hpw
    rw [List.pairwise_cons] at hpw
    have hstep := create_fresh_sensors mrc hasCb d.snum d.pin d.pullUp acc
      (hpins d (List.mem_cons_self d rest))
      (fun x hx => hdisj d (List.mem_cons_self d rest) x hx)
    have hdisj2 : ∀ e ∈ rest,
        ∀ x ∈ (create mrc hasCb true d.snum d.pin d.pullUp acc).2.sensors,
        x.data.snum ≠ e.snum := by
      intro e he x hx
      rw [hstep] at hx
      rcases List.mem_cons.mp hx with hx | hx
      · rw [hx]
        exact hpw.1 e he
      · exact hdisj e (List.mem_cons_of_mem d he) x hx
    simp only [load]
    rw [ih ((create mrc hasCb true d.snum d.pin d.pullUp acc).2)
      (fun e he => hpins e (List.mem_cons_of_mem d he)) hdisj2 hpw.2]
    rw [hstep]
    simp

/-- C8: on a registry with pairwise-distinct ids and valid pins (invariants
of every reachable registry), `store()` followed by a reset to the empty
registry followed by `load()` reproduces the same set of `{id, pin, pullUp}`
triples — concretely, the reloaded record list is the reverse of the stored
one, hence a permutation of the original — with each reloaded descriptor's
runtime fields reinitialized (`committedActive = false`, `rawSample =
false`, `pendingCount = threshold`), and the persisted header count equals
the number of descriptors. -/
theorem store_load_roundtrip (mrc : Nat) (hasCb : Nat → Bool) (st : SensorState)
    (hnd : st.sensors.Pairwise (fun a b => a.data.snum ≠ b.data.snum))
    (hpins : ∀ s ∈ st.sensors, ¬(VPIN_MAX < s.data.pin ∧ s.data.pin ≠ VPIN_NONE)) :
    (store st).2 = st.sensors.length ∧
    (load mrc hasCb (store st).1 emptyState).sensors.map (fun s => s.data) =
      (st.sensors.map (fun s => s.data)).reverse ∧
    ((load mrc hasCb (store st).1 emptyState).sensors.map (fun s => s.data)).Perm
      (st.sensors.map (fun s => s.data)) ∧
    ∀ x ∈ (load mrc hasCb (store st).1 emptyState).sensors,
      x.active = false ∧ x.inputState = false ∧ x.latchDelay = mrc := by
  have hsens := load_sensors mrc hasCb (st.sensors.map (fun s => s.data)) emptyState
    (by
      intro d hd
      obtain ⟨s, hs, rfl⟩ := List.mem_map.mp hd
      exact hpins s hs)
    (by intro d _ x hx; simp [emptyState] at hx)
    (by
      rw [List.pairwise_map]
      exact hnd)
  have hdata : ∀ d : SensorData,
      (initSensor mrc hasCb d.snum d.pin d.pullUp).data = d := fun d => rfl
  have hmap : (load mrc hasCb (store st).1 emptyState).sensors.map (fun s => s.data) =
      (st.sensors.map (fun s => s.data)).reverse := by
    show (load mrc hasCb (st.sensors.map (fun s => s.data)) emptyState).sensors.map
        (fun s => s.data) = (st.sensors.map (fun s => s.data)).reverse
    rw [hsens]
    simp only [emptyState, List.append_nil, List.map_reverse, List.map_map]
    simp only [Function.comp_def, hdata]
  refine ⟨rfl, hmap, ?_, ?_⟩
  · rw [hmap]
    exact List.reverse_perm _
  · intro x hx
    have hx' : x ∈ (load mrc hasCb (st.sensors.map (fun s => s.data))
        emptyState).sensors := hx
    rw [hsens] at hx'
    simp only [emptyState, List.append_nil, List.mem_reverse, List.mem_map] at hx'
    obtain ⟨d, _, rfl⟩ := hx'
    exact ⟨rfl, rfl, rfl⟩

/-- Registry of three sensors with distinct ids and valid pins. -/
def c8State : SensorState :=
  { sensors := [c3a, c3b, c2Sensor], readingSensor := none, lastReadCycle := 0 }

/-- Witness for C8 on a three-sensor registry: the stored header count is 3
and the reloaded records are the stored records reversed. -/
theorem store_load_roundtrip_witness :
    (store c8State).2 = 3 ∧
    (load 2 (fun _ => false) (store c8State).1 emptyState).sensors.map
      (fun s => s.data) = (c8State.sensors.map (fun s => s.data)).reverse := by
  have h := store_load_roundtrip 2 (fun _ => false) c8State
    (by simp [c8State, c3a, c3b, c2Sensor]) (by decide)
  exact ⟨h.1, h.2.1⟩

/-- C9 (counterexample): for a *polled* descriptor, the scan tick that
follows `setState` re-reads the pin into `rawSample` before debouncing, so
the injected value is overwritten: with committed state `false`, injected
value `1` (so the claim requires a commit and broadcast on the next visiting
tick) and the pin reading inactive, the next invocation visits the
descriptor but commits and broadcasts nothing. -/
theorem setState_polled_overwrite_counterexample :
    c1Sensor.pollingRequired = true ∧
    c1Sensor.active ≠ ((1 : Int) != 0) ∧
    (checkAll 3 0 0 (fun _ => false)
      { sensors := [setState 1 c1Sensor], readingSensor := some 0,
        lastReadCycle := 0 }).2 = [] ∧
    (checkAll 3 0 0 (fun _ => false)
      { sensors := [setState 1 c1Sensor], readingSensor := some 0,
        lastReadCycle := 0 }).1.sensors.map (fun s => s.active) = [false] := by
  decide

/-- C9 (amended): `setState(value)` stores `value ≠ 0` in `rawSample` and
forces `pendingCount` to 0; for a descriptor that the scan does not poll
(`pollingRequired` false, or pin equal to the "none" sentinel — the
intended use of `setState`), when the injected value differs from the
committed state, the very next scan tick that visits the descriptor
commits the change and broadcasts it, without waiting out the debounce
window. -/
theorem setState_immediate_commit (mrc : Nat) (v : Int) (readFn : Nat → Bool)
    (fuel : Nat) (sensors : List Sensor) (i : Nat) (s : Sensor)
    (hs : sensors.get? i = some (setState v s))
    (hnp : s.pollingRequired = false ∨ s.data.pin = VPIN_NONE)
    (hdiff : s.active ≠ (v != 0)) :
    setState v s = { s with inputState := v != 0, latchDelay := 0 } ∧
    (checkLoop readFn mrc (fuel + 1) sensors i).2.2 = [(s.data.snum, v != 0)] ∧
    (checkLoop readFn mrc (fuel + 1) sensors i).1.get? i =
      some { s with inputState := v != 0, active := (v != 0), latchDelay := mrc } := by
  obtain ⟨hlen, hget⟩ := List.get?_eq_some.mp hs
  have hscan : scanStep readFn mrc (sensors.get ⟨i, hlen⟩) =
      ({ s with inputState := v != 0, active := (v != 0), latchDelay := mrc },
        some (s.data.snum, v != 0)) := by
    rw [hget]
    unfold scanStep
    have hpoll : ¬((setState v s).pollingRequired = true ∧
        (setState v s).data.pin ≠ VPIN_NONE) := by
      rcases hnp with h | h
      · intro hc
        rw [show (setState v s).pollingRequired = s.pollingRequired from rfl, h] at hc
        exact absurd hc.1 (by simp)
      · intro hc
        exact hc.2 (by rw [show (setState v s).data.pin = s.data.pin from rfl, h])
    rw [if_neg hpoll]
    have hne : ¬((setState v s).inputState = (setState v s).active) := by
      show ¬((v != 0) = s.active)
      exact fun hcontr => hdiff hcontr.symm
    unfold debounceStep
    rw [if_neg hne]
    rw [if_neg (by show ¬ 0 < (setState v s).latchDelay; simp [setState])]
    rfl
  have hstop := checkLoop_succ_stop readFn mrc fuel sensors i hlen
    (Or.inl (by rw [hscan]; rfl))
  refine ⟨rfl, ?_, ?_⟩
  · rw [hstop]
    show (scanStep readFn mrc (sensors.get ⟨i, hlen⟩)).2.toList = [(s.data.snum, v != 0)]
    rw [hscan]
    rfl
  · rw [hstop]
    show (sensors.set i (scanStep readFn mrc (sensors.get ⟨i, hlen⟩)).1).get? i =
      some { s with inputState := v != 0, active := (v != 0), latchDelay := mrc }
    rw [hscan]
    exact List.get?_set_eq_of_lt _ hlen

/-- Non-polled sensor (no physical pin) used by the software-injection
scenario. -/
def c9Sensor : Sensor :=
  { data := { snum := 4, pin := VPIN_NONE, pullUp := 0 }
    active := false, inputState := false, latchDelay := 3, pollingRequired := false }

/-- Witness for the amended C9: injecting value 5 into the pinless sensor
makes the next visiting scan tick broadcast the transition at once. -/
theorem setState_immediate_commit_witness :
    (checkLoop (fun _ => false) 3 16 [setState 5 c9Sensor] 0).2.2 = [(4, true)] ∧
    (checkLoop (fun _ => false) 3 16 [setState 5 c9Sensor] 0).1.get? 0 =
      some { c9Sensor with inputState := true, active := true, latchDelay := 3 } := by
  have h := setState_immediate_commit 3 5 (fun _ => false) 15 [setState 5 c9Sensor] 0
    c9Sensor rfl (Or.inl rfl) (by decide)
  exact ⟨h.2.1, h.2.2⟩

/-- Search-and-update behaviour of the notification bridge on the list. -/
theorem inputChangeList_first_match (vpin : Nat) (level : Int) :
    ∀ (pre : List Sensor) (s : Sensor) (post : List Sensor),
      (∀ x ∈ pre, x.data.pin ≠ vpin) → s.data.pin = vpin →
      inputChangeList vpin level (pre ++ s :: post) =
        pre ++ { s with inputState := level != 0 } :: post := by
  intro pre
  induction pre with
  | nil =>
    intro s post _ hs
    simp [inputChangeList, hs]
  | cons a pre ih =>
    intro s post hpre hs
    simp only [List.cons_append, inputChangeList, List.append_eq]
    rw [if_neg (hpre a (List.mem_cons_self a pre)),
      ih s post (fun x hx => hpre x (List.mem_cons_of_mem a hx)) hs]

/-- C10: a change-notification event for a pin updates the `rawSample` of
only the first descriptor in list order bound to that pin (the most
recently created one, since creation inserts at the head); every other
descriptor — in particular every later descriptor with the same pin — and
all remaining registry state are left unchanged. -/
theorem inputChangeCallback_first_match (vpin : Nat) (level : Int)
    (st : SensorState) (pre : List Sensor) (s : Sensor) (post : List Sensor)
    (hsplit : st.sensors = pre ++ s :: post)
    (hpre : ∀ x ∈ pre, x.data.pin ≠ vpin)
    (hs : s.data.pin = vpin) :
    (inputChangeCallback vpin level st).sensors =
      pre ++ { s with inputState := level != 0 } :: post ∧
    (inputChangeCallback vpin level st).readingSensor = st.readingSensor ∧
    (inputChangeCallback vpin level st).lastReadCycle = st.lastReadCycle := by
  refine ⟨?_, rfl, rfl⟩
  show inputChangeList vpin level st.sensors = _
  rw [hsplit]
  exact inputChangeList_first_match vpin level pre s post hpre hs

/-- Two sensors bound to the same pin 9, most recently created first. -/
def c10a : Sensor :=
  { data := { snum := 11, pin := 9, pullUp := 0 }
    active := false, inputState := false, latchDelay := 2, pollingRequired := false }

/-- The older sensor on pin 9. -/
def c10b : Sensor :=
  { data := { snum := 12, pin := 9, pullUp := 0 }
    active := false, inputState := false, latchDelay := 2, pollingRequired := false }

/-- Registry with two sensors on the same pin. -/
def c10State : SensorState :=
  { sensors := [c10a, c10b], readingSensor := none, lastReadCycle := 0 }

/-- Witness for C10: a notification on pin 9 updates only the first of the
two sensors bound to pin 9. -/
theorem inputChangeCallback_first_match_witness :
    (inputChangeCallback 9 1 c10State).sensors =
      [{ c10a with inputState := true }, c10b] := by
  have h := inputChangeCallback_first_match 9 1 c10State [] c10a [c10b]
    rfl (by simp) rfl
  exact h.1

end Sensors
